import Mathlib

set_option autoImplicit false

/-!
Verification development for the darvaza-proxy/resolver DNS resolver core.

The Go source is shallowly embedded:
* wall-clock times and Go `time.Duration` values are `Int` nanoseconds
  (Go durations are nanosecond counts; `time.Time.Add` adds nanoseconds);
* canonical DNS names (FQDN, lowercase) are label sequences `List String`,
  the root "." being `[]`; the zone name field uses `Option` so that the
  Go empty string name (distinct from ".") is representable as `none`;
* the external `simplelru.LRU` is an association list of entries; capacity
  driven eviction is not modelled, no claim here depends on it;
* functions doing I/O (wire exchanges, CNAME steps) take the result of the
  I/O as an explicit argument (an oracle), keeping the control flow of the
  source intact.
-/

namespace Resolver

/-! Base types -/

/-- Nanosecond timestamps and durations, as in Go `time.Time`/`time.Duration`. -/
abbrev NanoTime := Int

/-- Nanoseconds per second, the value of Go `time.Second`. -/
def nsPerSecond : Int := 1000000000

/-- A single DNS label. -/
abbrev Label := String

/-- A canonical FQDN as its label sequence; `[]` is the root ".". -/
abbrev DName := List Label

/-- Model of `netip.Addr`: a validity flag (the zero `netip.Addr` is
invalid), an address family flag and an abstract numeric value. -/
structure IPAddr where
  valid : Bool := true
  isV6 : Bool := false
  val : Nat := 0
  deriving DecidableEq

/-- DNS record-type codes used by the core (from the dns package). -/
def typeA : Nat := 1

/-- NS record-type code. -/
def typeNS : Nat := 2

/-- CNAME record-type code. -/
def typeCNAME : Nat := 5

/-- SOA record-type code. -/
def typeSOA : Nat := 6

/-- AAAA record-type code. -/
def typeAAAA : Nat := 28

/-- Model of a `dns.RR` resource record: owner name (`none` models the Go
empty owner string), record type, TTL, and the payloads the core reads
(NS target for NS records, address for A/AAAA records). -/
structure RR where
  owner : Option DName := none
  rrtype : Nat := 0
  ttl : Nat := 0
  target : Option DName := none
  addr : Option IPAddr := none
  deriving DecidableEq

/-! NSCacheZone (src/cache_ns_zone.go) -/

/-- MinimumNSCacheTTL from cache_ns_zone.go: "the minimum time, in seconds,
entries remain in the cache". In Go it is the untyped constant 10. -/
def MinimumNSCacheTTL : Nat := 10

/-- Model of `NSCacheZone`: zone name (`none` is the Go empty string name),
NS owner names in registration order, the glue map as an association list
from NS name to addresses, the sorted NS list built by `Index`, the original
TTL in seconds, and the expiration and half-life instants. -/
structure NSCacheZone where
  name : Option DName := none
  ns : List DName := []
  sortedNS : List DName := []
  glue : List (DName × List IPAddr) := []
  ttl : Nat := 0
  untilTime : NanoTime := 0
  halfLife : NanoTime := 0
  deriving DecidableEq

namespace NSCacheZone

/-- Translation of `NSCacheZone.TTL`. The Go body is
`duration := now.Sub(zone.until); if duration > 0 { return
uint32(duration / time.Second) }; return 0`, with `now := time.Now()`
passed explicitly here. Note the subtraction order of the source:
`now - until`, not `until - now`. -/
def TTL (zone : NSCacheZone) (now : NanoTime) : Nat :=
  let duration : Int := now - zone.untilTime
  if duration > 0 then (duration / nsPerSecond).toNat else 0

/-- Translation of `NSCacheZone.Len`: `len(zone.ns) + len(zone.glue)`.
`zone.glue` is a Go map keyed by NS name, so its `len` is the number of
glue slots, not the number of addresses. -/
def Len (zone : NSCacheZone) : Nat :=
  zone.ns.length + zone.glue.length

/-- Translation of `NSCacheZone.IsValid`. The Go body returns false when
the receiver is nil (values only here), when `len(zone.ns) == 0` or
`len(zone.glue) == 0`, or when `zone.name == ""`; true otherwise. -/
def IsValid (zone : NSCacheZone) : Bool :=
  if zone.ns.isEmpty || zone.glue.isEmpty then false
  else if zone.name.isNone then false
  else true

/-- Lookup of a glue slot, the read `zone.glue[name]` on the Go map. -/
def glueFind (glue : List (DName × List IPAddr)) (n : DName) : List IPAddr :=
  match glue with
  | [] => []
  | p :: rest => if p.1 = n then p.2 else glueFind rest n

/-- Translation of `newGlueRR`: skip invalid addresses, AAAA for v6,
A otherwise. -/
def newGlueRR (n : DName) (t : Nat) (ip : IPAddr) : Option RR :=
  if !ip.valid then none
  else if ip.isV6 then some { owner := some n, rrtype := typeAAAA, ttl := t, addr := some ip }
  else some { owner := some n, rrtype := typeA, ttl := t, addr := some ip }

/-- Translation of `NSCacheZone.ExportNS`: one NS record per registered NS
name, each carrying `zone.TTL()` as TTL and the zone name as owner. -/
def ExportNS (zone : NSCacheZone) (now : NanoTime) : List RR :=
  let t := zone.TTL now
  zone.ns.map fun n => { owner := zone.name, rrtype := typeNS, ttl := t, target := some n }

/-- Translation of `NSCacheZone.ExportGlue`: for each NS in `sortedNS`, one
A/AAAA record per glue address, each carrying `zone.TTL()` as TTL. -/
def ExportGlue (zone : NSCacheZone) (now : NanoTime) : List RR :=
  let t := zone.TTL now
  (zone.sortedNS.map fun n => (glueFind zone.glue n).filterMap (newGlueRR n t)).flatten

end NSCacheZone

/-! NSCache (the NSCache documents inside src/cache_ns_test.go) -/

/-- An entry of the external `simplelru.LRU` as used by `NSCache`:
`lru.Add(key, zone, size, expire)`. -/
structure LruEntry where
  key : DName
  zone : NSCacheZone
  size : Nat
  expire : NanoTime
  deriving DecidableEq

/-- The LRU content, most recent first. -/
abbrev LruState := List LruEntry

/-- Model of `lru.Get`: find the entry stored under a key. -/
def lruGet (lru : LruState) (k : DName) : Option NSCacheZone :=
  match lru with
  | [] => none
  | e :: rest => if e.key = k then some e.zone else lruGet rest k

/-- Model of `lru.Add`: insert or replace the entry under the key. -/
def lruAdd (lru : LruState) (k : DName) (z : NSCacheZone) (size : Nat)
    (expire : NanoTime) : LruState :=
  ⟨k, z, size, expire⟩ :: lru.filter fun e => !(e.key = k : Bool)

/-- Key a zone is stored under: `zone.Name()`. Valid zones always have a
name, so the root default for the unset name is never used by `doAdd`. -/
def zoneKey (zone : NSCacheZone) : DName :=
  zone.name.getD []

namespace NSCache

/-- Translation of `NSCache.Suffixes`: `dns.Split` yields the start offset
of every label, so the produced strings are the label-boundary suffixes of
the name in decreasing length, and "." is appended. On label sequences this
is exactly the list of list-suffixes. For the root, `dns.Split` yields no
offsets and the result is `["."]`. -/
def Suffixes : DName → List DName
  | [] => [[]]
  | l :: rest => (l :: rest) :: Suffixes rest

/-- Iteration of `NSCache.Lookup` over the suffix list: return the first
suffix present in the LRU. -/
def lookupGo (lru : LruState) : List DName → Option NSCacheZone
  | [] => none
  | n :: rest =>
    match lruGet lru n with
    | some z => some z
    | none => lookupGo lru rest

/-- Translation of `NSCache.Lookup`: best NS match for a name, walking
`Suffixes qName` in order. -/
def Lookup (lru : LruState) (qName : DName) : Option NSCacheZone :=
  lookupGo lru (Suffixes qName)

/-- Translation of `NSCache.doAdd`:
`nsc.lru.Add(zone.Name(), zone, zone.Len(), expire)`. -/
def doAdd (lru : LruState) (zone : NSCacheZone) (expire : NanoTime) : LruState :=
  lruAdd lru (zoneKey zone) zone zone.Len expire

/-- Translation of `NSCache.Add`: reject invalid zones with
`core.ErrInvalid` (modelled as `none`), otherwise store under the zone name
with the zone expiration. The `zone.unsafeIndex()` call of the source (its
definition is not part of the sources here) only rebuilds the derived
`sortedNS` and server-address fields and is elided. -/
def Add (lru : LruState) (zone : NSCacheZone) : Option LruState :=
  if !zone.IsValid then none
  else some (doAdd lru zone zone.untilTime)

/-- Translation of `NSCache.onLRUEvict`: when the evicted name is flagged
persistent and no replacement entry is present, re-insert the evicted zone
with `expire := time.Now().UTC().Add(MinimumNSCacheTTL)`. In Go the
argument of `time.Time.Add` is a `time.Duration` in nanoseconds and
`MinimumNSCacheTTL` is the untyped constant 10, so the source adds 10
nanoseconds to `now`. -/
def onLRUEvict (persistent : List DName) (lru : LruState) (qName : DName)
    (zone : NSCacheZone) (now : NanoTime) : LruState :=
  if qName ∈ persistent then
    match lruGet lru qName with
    | some _ => lru
    | none => doAdd lru zone (now + (MinimumNSCacheTTL : Int))
  else lru

end NSCache

/-! Messages and errors (src/pkg/errors/transform.go, first document) -/

/-- Model of a `dns.Question`. -/
structure Question where
  name : String := ""
  qtype : Nat := 0
  qclass : Nat := 0
  deriving DecidableEq

/-- Model of a `dns.Msg`: header bits, response code and the four sections.
Record owner names at the message level are as in `RR`. -/
structure DnsMsg where
  id : Nat := 0
  response : Bool := false
  truncated : Bool := false
  authoritative : Bool := false
  rcode : Nat := 0
  question : List Question := []
  answer : List RR := []
  ns : List RR := []
  extra : List RR := []
  deriving DecidableEq

/-- Model of `net.DNSError`: message text, query name, server, and the
three classifier flags. -/
structure DNSError where
  err : String := ""
  name : String := ""
  server : String := ""
  isTimeout : Bool := false
  isTemporary : Bool := false
  isNotFound : Bool := false
  deriving DecidableEq

/-- NOANSWER text from pkg/errors/consts.go. -/
def NOANSWER : String := "no answer"

/-- NODATA text from pkg/errors/consts.go. -/
def NODATA : String := "NODATA"

/-- NXDOMAIN text from pkg/errors/consts.go. -/
def NXDOMAIN : String := "NXDOMAIN"

/-- TRUNCATED text from pkg/errors/consts.go. -/
def TRUNCATED : String := "dns response was truncated"

/-- Success response code (`dns.RcodeSuccess`). -/
def rcodeSuccess : Nat := 0

/-- Name-error response code (`dns.RcodeNameError`, NXDOMAIN). -/
def rcodeNameError : Nat := 3

/-- Model of the `dns.RcodeToString` map; a missing key yields the Go
zero value "". Only the standard codes the core can meet are listed. -/
def rcodeToString (rcode : Nat) : String :=
  match rcode with
  | 0 => "NOERROR"
  | 1 => "FORMERR"
  | 2 => "SERVFAIL"
  | 3 => "NXDOMAIN"
  | 4 => "NOTIMP"
  | 5 => "REFUSED"
  | 6 => "YXDOMAIN"
  | 7 => "YXRRSET"
  | 8 => "NXRRSET"
  | 9 => "NOTAUTH"
  | 10 => "NOTZONE"
  | _ => ""

/-- Translation of `nameFromMsg` on the question list: first question with
a non-empty name, else "". -/
def nameFromQuestions : List Question → String
  | [] => ""
  | q :: rest => if q.name.length > 0 then q.name else nameFromQuestions rest

/-- Translation of `nameFromMsg`: "" for a nil message. -/
def nameFromMsg : Option DnsMsg → String
  | none => ""
  | some m => nameFromQuestions m.question

/-- Translation of `ErrTypeNotFound`: name exists, type does not. -/
def ErrTypeNotFound (qName : String) : DNSError :=
  { err := NODATA, name := qName, isNotFound := true }

/-- Translation of `ErrNotFound`: the name does not exist. -/
def ErrNotFound (qName : String) : DNSError :=
  { err := NXDOMAIN, name := qName, isNotFound := true }

/-- Translation of `MsgAsError` (transform.go, first document): nil message,
truncation, NODATA on authoritative empty success, success, NXDOMAIN, and
the rcode-as-string fallback. -/
def MsgAsError (r : Option DnsMsg) : Option DNSError :=
  let name := nameFromMsg r
  match r with
  | none => some { err := NOANSWER, name := name, isTemporary := true }
  | some m =>
    if m.truncated then
      some { err := TRUNCATED, name := name, isTemporary := true }
    else if m.rcode = rcodeSuccess then
      if m.answer.length = 0 ∧ m.authoritative then some (ErrTypeNotFound name)
      else none
    else if m.rcode = rcodeNameError then
      some (ErrNotFound name)
    else
      some { err := rcodeToString m.rcode, name := name }

/-- A Go `error` value handed to `ValidateResponse` by the transport:
either a typed `net.DNSError` or any other error with the classifier
results of the `IsTimeout`/`IsTemporary`/`IsNotFound` helpers. -/
inductive GoErr where
  | dnsError (e : DNSError)
  | other (msg : String) (isTimeout isTemporary isNotFound : Bool)
  deriving DecidableEq

/-- Translation of `core.Coalesce` on strings: first non-zero value. -/
def coalesceStr (a b : String) : String :=
  if a = "" then b else a

/-- Translation of `ValidateResponse` (transform.go, first document). -/
def ValidateResponse (server : String) (r : Option DnsMsg) (err : Option GoErr) :
    Option DNSError :=
  let name := nameFromMsg r
  match err with
  | none =>
    match MsgAsError r with
    | some e => some { e with server := server }
    | none => none
  | some (.dnsError e) =>
    some { e with server := coalesceStr e.server server, name := coalesceStr e.name name }
  | some (.other msg t tm nf) =>
    some { err := msg, server := server, name := name,
           isTimeout := t, isTemporary := tm, isNotFound := nf }

/-! Client-level SingleFlight (src/pkg/client/singleflight.go) -/

/-- Minimal model of `dns.Msg.SetReply`: copy the request id and question,
mark the message a response with success rcode. -/
def dnsSetReply (req : DnsMsg) : DnsMsg :=
  { id := req.id, response := true, rcode := rcodeSuccess, question := req.question }

/-- Outcome of the request-sanitizing prologue of
`SingleFlight.ExchangeContext`: an immediate empty reply, or the request
to carry into the keyed exchange. -/
inductive SFPrep where
  | emptyReply (resp : DnsMsg)
  | proceed (req : DnsMsg)
  deriving DecidableEq

/-- Translation of the prologue of `SingleFlight.ExchangeContext` (after
the nil checks): no questions gives an immediate `SetReply`; more than one
question shrinks the caller request to its first question in place; a zero
id is replaced by `dns.Id()`, whose drawn value is the explicit `freshId`
argument (the dns package draws a uniformly random uint16). -/
def sfExchangeContextPrep (req : DnsMsg) (freshId : Nat) : SFPrep :=
  match req.question with
  | [] => .emptyReply (dnsSetReply req)
  | q :: rest =>
    let req1 := match rest with
      | [] => req
      | _ :: _ => { req with question := [q] }
    let req2 := if req1.id = 0 then { req1 with id := freshId } else req1
    .proceed req2

/-- Translation of `sfResult.Export`: when the result is shared (the caller
is a follower) and a response exists, the response is copied and its id is
set to the id of the request of this caller; the error and the rtt measured
by the leader pass through. -/
def sfResultExport (res : Option DnsMsg) (rtt : Int) (err : Option GoErr)
    (req : DnsMsg) (shared : Bool) : Option DnsMsg × Int × Option GoErr :=
  match shared, res with
  | true, some m => (some { m with id := req.id }, rtt, err)
  | _, _ => (res, rtt, err)

/-! Resolver-level SingleFlight (src/singleflight.go) -/

/-- Translation of `errors.ErrInternalError`. -/
def ErrInternalError (name server : String) : DNSError :=
  { err := rcodeToString 2, name := name, server := server, isTemporary := true }

/-- Translation of the result handling of `SingleFlight.doExchange`
(src/singleflight.go): the group value `v` and error of the leader are
delivered to every caller sharing the key. The value is type-asserted and
passed through as-is: unlike the client-level single flight, no copy is
made and no id is rewritten, and the shared flag is discarded. -/
def sfDoExchangeDeliver (qName : String) (v : Option DnsMsg)
    (err : Option DNSError) : Option DnsMsg × Option DNSError :=
  match v, err with
  | some resp, e => (some resp, e)
  | none, none => (none, some (ErrInternalError qName "singleflight"))
  | none, some e => (none, some e)

/-! Iterator CNAME chase (src/iterator.go) -/

/-- Translation of `IteratorLookuper.mergeCNAMEAnswer`: copy the first
response, append the whole Answer and Authority sections of the second,
and only its A/AAAA Additional records. -/
def mergeCNAMEAnswer (resp1 resp2 : DnsMsg) : DnsMsg :=
  { resp1 with
    answer := resp1.answer ++ resp2.answer
    ns := resp1.ns ++ resp2.ns
    extra := resp1.extra ++
      resp2.extra.filter fun rr => rr.rrtype = typeA ∨ rr.rrtype = typeAAAA }

/-- Translation of the tail of `IteratorLookuper.handleCNAMEAnswer`: the
recursive sub-exchange for the CNAME target is the explicit oracle
argument; on its failure the pre-chase response is returned with a nil
error, on success the merged copy is returned with a nil error. -/
def handleCNAMEAnswer (resp : DnsMsg) (sub : Except DNSError DnsMsg) :
    DnsMsg × Option DNSError :=
  match sub with
  | .error _ => (resp, none)
  | .ok resp2 => (mergeCNAMEAnswer resp resp2, none)

/-! CNAME chasing loop (LookupResolver.doLookupCNAME, src/unnamed/part_015) -/

/-- Error produced when the CNAME chain revisits a name. -/
def cnameLoopErr (host : String) : DNSError :=
  { err := "CNAME loop", name := host }

/-- Translation of the loop of `LookupResolver.doLookupCNAME`. The body of
`stepLookupCNAME` performs a network lookup and is the oracle `step`;
`canon` stands for `dns.CanonicalName`. The Go for-loop runs while the
current name is not in `visited`; a fuel argument makes the recursion
structural, `none` meaning the fuel ran out before the loop returned. -/
def doLookupCNAME (step : String → Except DNSError String)
    (canon : String → String) (host : String) :
    Nat → List String → Bool → String → Option (Except DNSError String)
  | 0, _, _, _ => none
  | fuel + 1, visited, found, qName =>
    if qName ∈ visited then some (.error (cnameLoopErr host))
    else
      match step qName with
      | .ok name =>
        if name = qName then some (.ok qName)
        else doLookupCNAME step canon host fuel (visited ++ [qName]) true (canon name)
      | .error e =>
        if e.isNotFound && found then some (.ok qName)
        else some (.error e)

/-- The entry point of `doLookupCNAME`: empty visited set, no hop made yet,
starting from the host. -/
def doLookupCNAMErun (step : String → Except DNSError String)
    (canon : String → String) (host : String) (fuel : Nat) :
    Option (Except DNSError String) :=
  doLookupCNAME step canon host fuel [] false host

/-! Concrete instances used to evaluate the model on explicit inputs -/

/-- A cached zone for "com." with one NS and one glue address. -/
def zoneCom : NSCacheZone :=
  { name := some ["com"], ns := [["a", "gtld-servers", "net"]],
    sortedNS := [["a", "gtld-servers", "net"]],
    glue := [(["a", "gtld-servers", "net"], [{ val := 192 }])],
    ttl := 172800, untilTime := 172800 * nsPerSecond }

/-- A cache holding only the "com." zone. -/
def lruCom : LruState :=
  [⟨["com"], zoneCom, zoneCom.Len, zoneCom.untilTime⟩]

/-- A pinned root zone as evicted from the cache. -/
def zoneRootC2 : NSCacheZone :=
  { name := some [], ns := [["a", "root-servers", "net"]],
    sortedNS := [["a", "root-servers", "net"]],
    glue := [(["a", "root-servers", "net"], [{ val := 198 }])],
    ttl := 518400, untilTime := 518400 * nsPerSecond }

/-- A zone with a registered NS whose glue slot holds no address. -/
def zoneC5 : NSCacheZone :=
  { name := some ["example", "com"], ns := [["ns1", "example", "com"]],
    glue := [(["ns1", "example", "com"], [])],
    ttl := 300, untilTime := 300 * nsPerSecond }

/-- The zero zone: no name, no NS, no glue slots. -/
def zoneC5bad : NSCacheZone := {}

/-- A zone whose expiration lies 30 seconds in the future of instant 0. -/
def zoneC8 : NSCacheZone :=
  { name := some ["com"], ns := [["a", "gtld-servers", "net"]],
    sortedNS := [["a", "gtld-servers", "net"]],
    glue := [(["a", "gtld-servers", "net"], [{ val := 192 }])],
    ttl := 30, untilTime := 30 * nsPerSecond }

/-- A zone with one NS carrying two glue addresses. -/
def zoneC9 : NSCacheZone :=
  { name := some ["example", "com"], ns := [["ns1", "example", "com"]],
    glue := [(["ns1", "example", "com"], [{ val := 1 }, { val := 2 }])],
    ttl := 300, untilTime := 300 * nsPerSecond }

/-- The response the single-flight leader obtained (transaction id 1). -/
def leaderRespC3 : DnsMsg :=
  { id := 1, response := true,
    question := [{ name := "x.", qtype := 1, qclass := 1 }] }

/-- The identical request of a follower caller (transaction id 2). -/
def followerReqC3 : DnsMsg :=
  { id := 2, question := [{ name := "x.", qtype := 1, qclass := 1 }] }

/-- First question of the two-question request below. -/
def qAC10 : Question := { name := "a.", qtype := 1, qclass := 1 }

/-- Second question of the two-question request below. -/
def qBC10 : Question := { name := "b.", qtype := 2, qclass := 1 }

/-- A request with two questions and transaction id 0. -/
def reqC10 : DnsMsg := { id := 0, question := [qAC10, qBC10] }

/-- The value of `reqC10` after the sanitizing prologue under an id draw
of 0. -/
def reqC10out : DnsMsg := { id := 0, question := [qAC10] }

/-- A CNAME-step oracle: "a." points at "b.", "b." points back at "a.",
every other name has no CNAME record. -/
def stepEx : String → Except DNSError String := fun s =>
  if s = "a." then .ok "b."
  else if s = "b." then .ok "a."
  else .error (ErrNotFound s)

/-- A truncated response. -/
def msgTruncEx : DnsMsg :=
  { truncated := true, question := [{ name := "q.", qtype := 1, qclass := 1 }] }

/-- An authoritative success with an empty answer section. -/
def msgNodataEx : DnsMsg :=
  { authoritative := true, question := [{ name := "q.", qtype := 1, qclass := 1 }] }

/-- A non-authoritative success carrying an answer. -/
def msgOkEx : DnsMsg :=
  { answer := [{ rrtype := 1 }],
    question := [{ name := "q.", qtype := 1, qclass := 1 }] }

/-- An NXDOMAIN response. -/
def msgNxEx : DnsMsg :=
  { rcode := 3, question := [{ name := "q.", qtype := 1, qclass := 1 }] }

/-- A REFUSED response. -/
def msgRefusedEx : DnsMsg :=
  { rcode := 5, question := [{ name := "q.", qtype := 1, qclass := 1 }] }

/-! Helper lemmas -/

theorem suffix_cons_cases {α : Type} {s t : List α} {a : α} (h : s <:+ a :: t) :
    s = a :: t ∨ s <:+ t := by
  obtain ⟨r, hr⟩ := h
  cases r with
  | nil => exact Or.inl hr
  | cons b l =>
    injection hr with h1 h2
    exact Or.inr ⟨l, h2⟩

theorem suffix_length_le {α : Type} {s t : List α} (h : s <:+ t) :
    s.length ≤ t.length := by
  obtain ⟨r, rfl⟩ := h
  simp

theorem suffix_tail {α : Type} (a : α) (t : List α) : t <:+ a :: t :=
  ⟨[a], rfl⟩

theorem lruGet_mem {lru : LruState} {k : DName} {z : NSCacheZone}
    (h : lruGet lru k = some z) : ∃ e ∈ lru, e.key = k ∧ e.zone = z := by
  induction lru with
  | nil => simp [lruGet] at h
  | cons e rest ih =>
    by_cases hk : e.key = k
    · refine ⟨e, by simp, hk, ?_⟩
      simpa [lruGet, hk] using h
    · simp only [lruGet, hk, if_false] at h
      obtain ⟨e2, he2, hk2, hz2⟩ := ih h
      exact ⟨e2, by simp [he2], hk2, hz2⟩

theorem nscLookup_nil (lru : LruState) : NSCache.Lookup lru [] = lruGet lru [] := by
  cases h : lruGet lru [] <;>
    simp [NSCache.Lookup, NSCache.Suffixes, NSCache.lookupGo, h]

theorem nscLookup_cons_some {lru : LruState} {l : Label} {rest : DName}
    {z : NSCacheZone} (h : lruGet lru (l :: rest) = some z) :
    NSCache.Lookup lru (l :: rest) = some z := by
  simp [NSCache.Lookup, NSCache.Suffixes, NSCache.lookupGo, h]

theorem nscLookup_cons_none {lru : LruState} {l : Label} {rest : DName}
    (h : lruGet lru (l :: rest) = none) :
    NSCache.Lookup lru (l :: rest) = NSCache.Lookup lru rest := by
  simp [NSCache.Lookup, NSCache.Suffixes, NSCache.lookupGo, h]

theorem nscLookup_found (lru : LruState) :
    ∀ (q : DName) (z : NSCacheZone), NSCache.Lookup lru q = some z →
      ∃ s, s <:+ q ∧ lruGet lru s = some z ∧
        ∀ t, t <:+ q → s.length < t.length → lruGet lru t = none
  | [], z, h => by
    rw [nscLookup_nil] at h
    refine ⟨[], List.suffix_refl [], h, ?_⟩
    intro t ht hlen
    have := suffix_length_le ht
    omega
  | l :: rest, z, h => by
    cases hg : lruGet lru (l :: rest) with
    | some z2 =>
      have hz : z2 = z := by
        have := (nscLookup_cons_some hg).symm.trans h
        exact Option.some.inj this
      subst hz
      refine ⟨l :: rest, List.suffix_refl _, hg, ?_⟩
      intro t ht hlen
      have := suffix_length_le ht
      omega
    | none =>
      rw [nscLookup_cons_none hg] at h
      obtain ⟨s, hs, hget, hlong⟩ := nscLookup_found lru rest z h
      refine ⟨s, hs.trans (suffix_tail l rest), hget, ?_⟩
      intro t ht hlen
      rcases suffix_cons_cases ht with rfl | ht2
      · exact hg
      · exact hlong t ht2 hlen

theorem nscLookup_none (lru : LruState) :
    ∀ q : DName, (∀ t, t <:+ q → lruGet lru t = none) → NSCache.Lookup lru q = none
  | [], h => by
    rw [nscLookup_nil]
    exact h [] (List.suffix_refl [])
  | l :: rest, h => by
    rw [nscLookup_cons_none (h _ (List.suffix_refl _))]
    exact nscLookup_none lru rest fun t ht => h t (ht.trans (suffix_tail l rest))

theorem nscLookup_root (lru : LruState) :
    ∀ (q : DName) (z : NSCacheZone), lruGet lru [] = some z →
      (∀ t, t <:+ q → t ≠ [] → lruGet lru t = none) → NSCache.Lookup lru q = some z
  | [], z, hz, _ => by
    rw [nscLookup_nil]
    exact hz
  | l :: rest, z, hz, h => by
    rw [nscLookup_cons_none (h _ (List.suffix_refl _) (by simp))]
    exact nscLookup_root lru rest z hz fun t ht hne =>
      h t (ht.trans (suffix_tail l rest)) hne

/-! Claim theorems -/

/-- C1: NSCache.Lookup returns the zone stored under the longest
label-boundary suffix of the query name present in the cache. Provided the
cache stores every zone under its own name, a returned zone's name is a
suffix of the query name at a label boundary and no strictly longer suffix
is a key of the cache; when no suffix is present the lookup reports
not-found; and the root entry is returned whenever it is present and no
longer suffix matches. -/
theorem nscache_lookup_longest_suffix (lru : LruState) (q : DName)
    (hkeys : ∀ e ∈ lru, e.zone.name = some e.key) :
    (∀ z, NSCache.Lookup lru q = some z →
      ∃ s, z.name = some s ∧ s <:+ q ∧ lruGet lru s = some z ∧
        ∀ t, t <:+ q → s.length < t.length → lruGet lru t = none) ∧
    ((∀ t, t <:+ q → lruGet lru t = none) → NSCache.Lookup lru q = none) ∧
    (∀ z, lruGet lru [] = some z →
      (∀ t, t <:+ q → t ≠ [] → lruGet lru t = none) →
      NSCache.Lookup lru q = some z) := by
  refine ⟨?_, nscLookup_none lru q, nscLookup_root lru q⟩
  intro z h
  obtain ⟨s, hs, hget, hlong⟩ := nscLookup_found lru q z h
  obtain ⟨e, he, hk, hz⟩ := lruGet_mem hget
  refine ⟨s, ?_, hs, hget, hlong⟩
  rw [← hz, hkeys e he, hk]

/-- C1 witness: on a cache holding only the "com." zone, looking up
"example.com." returns that zone, whose name "com." is the longest cached
suffix. -/
theorem nscache_lookup_longest_suffix_witness :
    ∃ s, zoneCom.name = some s ∧ s <:+ (["example", "com"] : DName) ∧
      lruGet lruCom s = some zoneCom ∧
      ∀ t, t <:+ (["example", "com"] : DName) → s.length < t.length →
        lruGet lruCom t = none :=
  (nscache_lookup_longest_suffix lruCom ["example", "com"] (by decide)).1
    zoneCom (by decide)

/-- C2: the eviction callback re-inserts an evicted persistent zone
unchanged, but the expiration it writes is now plus 10 nanoseconds: the
untyped constant MinimumNSCacheTTL is passed to Add on a time.Time, which
takes a Duration counted in nanoseconds, so the written expiration is not
now plus MinimumNSCacheTTL seconds. Evaluated on a pinned root zone evicted
at instant 0 with no replacement present. -/
theorem nscache_evict_restore_expiration :
    NSCache.onLRUEvict [[]] [] [] zoneRootC2 0 =
      [⟨[], zoneRootC2, zoneRootC2.Len, (10 : Int)⟩] ∧
    (10 : Int) ≠ (MinimumNSCacheTTL : Int) * nsPerSecond := by decide

/-- C5 counterexample: a zone with a registered NS and no glue address at
all is accepted by IsValid, so IsValid is not equivalent to the claimed
predicate requiring at least one NS with at least one glue address. -/
theorem nscache_zone_isvalid_counterexample :
    ¬ (zoneC5.IsValid = true ↔
      (zoneC5.name ≠ none ∧ zoneC5.ns ≠ [] ∧ ∃ p ∈ zoneC5.glue, p.2 ≠ [])) := by
  decide

/-- C5 amended: IsValid returns true iff the zone name is non-empty, at
least one NS name is registered and the glue slot map is non-empty; no glue
address is required. NSCache.Add stores a zone exactly when IsValid holds
and reports an invalid-argument error otherwise. -/
theorem nscache_zone_isvalid_amended (z : NSCacheZone) (lru : LruState) :
    (z.IsValid = true ↔ (z.name ≠ none ∧ z.ns ≠ [] ∧ z.glue ≠ [])) ∧
    (z.IsValid = true → NSCache.Add lru z = some (NSCache.doAdd lru z z.untilTime)) ∧
    (z.IsValid = false → NSCache.Add lru z = none) := by
  refine ⟨?_, ?_, ?_⟩
  · obtain ⟨name, ns, sortedNS, glue, ttl, untilTime, halfLife⟩ := z
    cases name <;> cases ns <;> cases glue <;> simp [NSCacheZone.IsValid]
  · intro h
    simp [NSCache.Add, h]
  · intro h
    simp [NSCache.Add, h]

/-- C5 amended witness: the glue-less zone is accepted while the zero zone
is rejected. -/
theorem nscache_zone_isvalid_amended_witness :
    NSCache.Add [] zoneC5 = some (NSCache.doAdd [] zoneC5 zoneC5.untilTime) ∧
    NSCache.Add [] zoneC5bad = none :=
  ⟨(nscache_zone_isvalid_amended zoneC5 []).2.1 (by decide),
   (nscache_zone_isvalid_amended zoneC5bad []).2.2 (by decide)⟩

/-- C8: NSCacheZone.TTL subtracts in the wrong order (now minus expiry), so
for a zone expiring 30 seconds in the future of instant 0 it returns 0, not
the residual 30 seconds, and the NS and glue records synthesized by
ExportNS and ExportGlue carry TTL 0; one second past expiry it returns 1,
the elapsed time. -/
theorem nscache_zone_ttl_not_residual :
    zoneC8.untilTime = 30 * nsPerSecond ∧
    zoneC8.TTL 0 = 0 ∧
    (zoneC8.ExportNS 0).map RR.ttl = [0] ∧
    (zoneC8.ExportGlue 0).map RR.ttl = [0] ∧
    zoneC8.TTL (31 * nsPerSecond) = 1 := by decide

/-- C9: NSCacheZone.Len adds the number of glue map keys, not the number of
glue addresses: for a zone with one NS holding two addresses it returns 2
while the number of NS names plus glue addresses is 3, and this value is
the size handed to the LRU by doAdd. -/
theorem nscache_zone_len_mismatch :
    zoneC9.Len = 2 ∧
    zoneC9.ns.length + (zoneC9.glue.map fun p => p.2.length).sum = 3 ∧
    zoneC9.Len ≠ zoneC9.ns.length + (zoneC9.glue.map fun p => p.2.length).sum ∧
    NSCache.doAdd [] zoneC9 zoneC9.untilTime =
      [⟨["example", "com"], zoneC9, zoneC9.Len, zoneC9.untilTime⟩] := by decide

/-- C3 counterexample: the resolver-level SingleFlight.doExchange hands a
follower the leader's response object unchanged: here the leader's
response keeps its id 1 although the follower's request carries id 2, so
the delivered message id does not equal the caller's request id. -/
theorem singleflight_follower_id_counterexample :
    (sfDoExchangeDeliver "x." (some leaderRespC3) none).1 = some leaderRespC3 ∧
    leaderRespC3.id = 1 ∧ followerReqC3.id = 2 ∧
    ¬ ((sfDoExchangeDeliver "x." (some leaderRespC3) none).1.map DnsMsg.id =
      some followerReqC3.id) := by decide

/-- C3 amended: the client-level SingleFlight (sfResult.Export) hands a
follower a copy of the leader's response with the id rewritten to the
follower's request id, while the resolver-level SingleFlight
(doExchange) passes the leader's response and error through unchanged,
with no copy and no id rewrite. -/
theorem singleflight_follower_delivery (res v : DnsMsg) (rtt : Int)
    (err : Option GoErr) (req : DnsMsg) (qName : String) (e : Option DNSError) :
    sfResultExport (some res) rtt err req true =
      (some { res with id := req.id }, rtt, err) ∧
    sfDoExchangeDeliver qName (some v) e = (some v, e) :=
  ⟨rfl, rfl⟩

/-- C4: with a nil transport error, response validation classifies exactly
per the table: nil response as temporary NOANSWER, truncation as temporary
TRUNCATED, authoritative empty-answer success as NODATA not-found, other
success as ok, NXDOMAIN rcode as not-found, and any other rcode as an error
whose text is the rcode rendered as a string. -/
theorem validate_response_classification (server : String) :
    (ValidateResponse server none none =
      some { err := NOANSWER, name := "", server := server, isTemporary := true }) ∧
    (∀ m : DnsMsg, m.truncated = true →
      ValidateResponse server (some m) none =
        some { err := TRUNCATED, name := nameFromQuestions m.question,
               server := server, isTemporary := true }) ∧
    (∀ m : DnsMsg, m.truncated = false → m.rcode = rcodeSuccess → m.answer = [] →
      m.authoritative = true →
      ValidateResponse server (some m) none =
        some { err := NODATA, name := nameFromQuestions m.question,
               server := server, isNotFound := true }) ∧
    (∀ m : DnsMsg, m.truncated = false → m.rcode = rcodeSuccess →
      (m.answer ≠ [] ∨ m.authoritative = false) →
      ValidateResponse server (some m) none = none) ∧
    (∀ m : DnsMsg, m.truncated = false → m.rcode = rcodeNameError →
      ValidateResponse server (some m) none =
        some { err := NXDOMAIN, name := nameFromQuestions m.question,
               server := server, isNotFound := true }) ∧
    (∀ m : DnsMsg, m.truncated = false → m.rcode ≠ rcodeSuccess →
      m.rcode ≠ rcodeNameError →
      ValidateResponse server (some m) none =
        some { err := rcodeToString m.rcode, name := nameFromQuestions m.question,
               server := server }) := by
  refine ⟨rfl, ?_, ?_, ?_, ?_, ?_⟩
  · intro m ht
    simp [ValidateResponse, MsgAsError, nameFromMsg, ht]
  · intro m ht hrc ha hauth
    simp [ValidateResponse, MsgAsError, nameFromMsg, ErrTypeNotFound, ht, hrc, ha, hauth]
  · intro m ht hrc hcase
    rcases hcase with ha | hauth
    · simp [ValidateResponse, MsgAsError, nameFromMsg, ht, hrc, ha]
    · simp [ValidateResponse, MsgAsError, nameFromMsg, ht, hrc, hauth]
  · intro m ht hrc
    simp [ValidateResponse, MsgAsError, nameFromMsg, ErrNotFound, ht, hrc, rcodeSuccess,
      rcodeNameError]
  · intro m ht h0 h3
    simp [ValidateResponse, MsgAsError, nameFromMsg, ht, h0, h3]

/-- C4 witness: the classification evaluated on one concrete response per
row of the table. -/
theorem validate_response_classification_witness :
    ValidateResponse "srv" (some msgTruncEx) none =
      some { err := TRUNCATED, name := "q.", server := "srv", isTemporary := true } ∧
    ValidateResponse "srv" (some msgNodataEx) none =
      some { err := NODATA, name := "q.", server := "srv", isNotFound := true } ∧
    ValidateResponse "srv" (some msgOkEx) none = none ∧
    ValidateResponse "srv" (some msgNxEx) none =
      some { err := NXDOMAIN, name := "q.", server := "srv", isNotFound := true } ∧
    ValidateResponse "srv" (some msgRefusedEx) none =
      some { err := "REFUSED", name := "q.", server := "srv" } :=
  ⟨(validate_response_classification "srv").2.1 msgTruncEx rfl,
   (validate_response_classification "srv").2.2.1 msgNodataEx rfl rfl rfl rfl,
   (validate_response_classification "srv").2.2.2.1 msgOkEx rfl rfl
     (Or.inl (by decide)),
   (validate_response_classification "srv").2.2.2.2.1 msgNxEx rfl rfl,
   (validate_response_classification "srv").2.2.2.2.2 msgRefusedEx rfl
     (by decide) (by decide)⟩

/-- C6: a failed CNAME-chase sub-exchange never fails the outer call: the
pre-chase response is returned with a nil error; on success the merged
response is a copy of the original with the sub-response's Answer and
Authority appended and only the A/AAAA records of its Additional section
appended, all other fields of the original response unchanged. -/
theorem iterator_cname_chase (resp resp2 : DnsMsg) (e : DNSError) :
    handleCNAMEAnswer resp (.error e) = (resp, none) ∧
    handleCNAMEAnswer resp (.ok resp2) = (mergeCNAMEAnswer resp resp2, none) ∧
    (mergeCNAMEAnswer resp resp2).answer = resp.answer ++ resp2.answer ∧
    (mergeCNAMEAnswer resp resp2).ns = resp.ns ++ resp2.ns ∧
    (mergeCNAMEAnswer resp resp2).extra = resp.extra ++
      resp2.extra.filter (fun rr => rr.rrtype = typeA ∨ rr.rrtype = typeAAAA) ∧
    (mergeCNAMEAnswer resp resp2).question = resp.question ∧
    (mergeCNAMEAnswer resp resp2).id = resp.id ∧
    (mergeCNAMEAnswer resp resp2).rcode = resp.rcode ∧
    (mergeCNAMEAnswer resp resp2).authoritative = resp.authoritative :=
  ⟨rfl, rfl, rfl, rfl, rfl, rfl, rfl, rfl, rfl⟩

/-- C7: the CNAME chasing loop fails with a "CNAME loop" error when a step
redirects to an already visited name; a not-found step after at least one
successful hop returns the current name with no error; and a not-found on
the very first step is returned as an error. -/
theorem cname_loop_protection (step : String → Except DNSError String)
    (canon : String → String) (host : String) :
    (∀ (fuel : Nat) (visited : List String) (found : Bool) (qName n : String),
      qName ∉ visited → step qName = .ok n → n ≠ qName →
      canon n ∈ visited ++ [qName] →
      doLookupCNAME step canon host (fuel + 2) visited found qName =
        some (.error (cnameLoopErr host))) ∧
    (∀ (fuel : Nat) (visited : List String) (qName : String) (e : DNSError),
      qName ∉ visited → step qName = .error e → e.isNotFound = true →
      doLookupCNAME step canon host (fuel + 1) visited true qName =
        some (.ok qName)) ∧
    (∀ (fuel : Nat) (e : DNSError),
      step host = .error e →
      doLookupCNAMErun step canon host (fuel + 1) = some (.error e)) := by
  refine ⟨?_, ?_, ?_⟩
  · intro fuel visited found qName n hnv hstep hne hmem
    simp [doLookupCNAME, hnv, hstep, hne, hmem]
  · intro fuel visited qName e hnv hstep hnf
    simp [doLookupCNAME, hnv, hstep, hnf]
  · intro fuel e hstep
    simp [doLookupCNAMErun, doLookupCNAME, hstep]

/-- C7 witness: with the oracle sending "a." to "b." and "b." back to
"a.", chasing from "a." with "b." already visited reports the loop;
a not-found on "c." after a hop returns "c."; and starting at "c."
returns its not-found error. -/
theorem cname_loop_protection_witness :
    doLookupCNAME stepEx id "c." 2 ["b."] false "a." =
      some (.error (cnameLoopErr "c.")) ∧
    doLookupCNAME stepEx id "c." 1 [] true "c." = some (.ok "c.") ∧
    doLookupCNAMErun stepEx id "c." 1 = some (.error (ErrNotFound "c.")) :=
  ⟨(cname_loop_protection stepEx id "c.").1 0 ["b."] false "a." "b."
     (by decide) rfl (by decide) (by decide),
   (cname_loop_protection stepEx id "c.").2.1 0 [] "c." (ErrNotFound "c.")
     (by decide) rfl (by decide),
   (cname_loop_protection stepEx id "c.").2.2 0 (ErrNotFound "c.") rfl⟩

/-- C10 counterexample: dns.Id draws a uniformly random uint16 and may draw
0; under the draw 0 the prologue leaves the zero id in place, so the
written id is not a nonzero one. -/
theorem sf_exchange_prep_counterexample :
    sfExchangeContextPrep reqC10 0 = .proceed reqC10out ∧ reqC10out.id = 0 := by
  decide

/-- C10 amended: for a request with more than one question the prologue of
the client-level ExchangeContext leaves the caller's request with only the
first question; a zero id is replaced by the drawn 16-bit id, which is not
guaranteed nonzero; a single-question request only has its id filled in;
all other fields are unchanged, as expressed by the record updates. -/
theorem sf_exchange_prep_frame (req : DnsMsg) (freshId : Nat) (q q2 : Question)
    (rest : List Question) :
    (req.question = q :: q2 :: rest →
      sfExchangeContextPrep req freshId = .proceed
        { req with question := [q],
                   id := if req.id = 0 then freshId else req.id }) ∧
    (req.question = [q] →
      sfExchangeContextPrep req freshId = .proceed
        { req with id := if req.id = 0 then freshId else req.id }) := by
  obtain ⟨rid, rresp, rtr, rauth, rrc, rquestion, rans, rns, rextra⟩ := req
  constructor
  · intro h
    replace h : rquestion = q :: q2 :: rest := h
    subst h
    by_cases h0 : rid = 0 <;> simp [sfExchangeContextPrep, h0]
  · intro h
    replace h : rquestion = [q] := h
    subst h
    by_cases h0 : rid = 0 <;> simp [sfExchangeContextPrep, h0]

/-- C10 witness: the two-question zero-id request under the draw 7 is
truncated to its first question with id 7. -/
theorem sf_exchange_prep_frame_witness :
    sfExchangeContextPrep reqC10 7 = .proceed
      { reqC10 with question := [qAC10],
                    id := if reqC10.id = 0 then 7 else reqC10.id } :=
  (sf_exchange_prep_frame reqC10 7 qAC10 qBC10 []).1 rfl

end Resolver
